import Mathlib

/-!
Verification of the FoodAgent search-and-relaxation engine.

Shallow embedding of `src/food_api_service.py` (the relaxation engine used by
the taste/cuisine entry path) and of `src/amap/food_api_service.py` (the
single-pass variant).  Provider calls are modelled by an oracle
`Option String → Option String → SearchResult` standing for `_do_search`
applied to a fixed location/city environment: the engine only varies the
keyword and the POI type code between calls, so this is the full interface it
exercises.  Each `smart_search` run also returns the ordered trace of oracle
calls it issued, so that claims about which searches are performed can be
stated.  Python dictionaries are modelled as structures with `Option` fields
for keys that are absent on some paths, and Python truthiness of strings,
lists and integers is modelled explicitly.  The cost parse is modelled at
two levels: `parseCost` gives the value classification the ladder theorems
quantify over, while `parseCostExc` and the `_exc` variants of the filter
and the engine make the exception behavior of `int(float(...))` explicit,
including the OverflowError that the code's except clause does not catch.
-/

namespace FoodAgent

/-- Truthiness of a Python `Optional[str]`: `None` and `""` are falsy. -/
def strTruthy : Option String → Bool
  | none => false
  | some s => !(s == "")

/-- A normalized venue record (the fields the relaxation engine inspects:
`id` for dedup keys, `cost` for budget filtering; `name` kept for realism). -/
structure Restaurant where
  id : String
  name : String
  cost : String
deriving DecidableEq, Repr

/-- The result dictionary flowing through `smart_search`: the `restaurants`
key is always present; `count`, `error` and `relaxed` are present only on
some paths, mirroring the Python dicts. -/
structure SearchResult where
  restaurants : List Restaurant
  count : Option Nat
  error : Option String
  relaxed : Option String
deriving DecidableEq, Repr

/-- Numeric value of a run of ASCII digits. -/
def digitsVal (cs : List Char) : Nat :=
  cs.foldl (fun a ch => 10 * a + (ch.toNat - 48)) 0

/-- Strip leading and trailing whitespace, modelling Python `str.strip()`. -/
def trimChars (cs : List Char) : List Char :=
  ((cs.dropWhile Char.isWhitespace).reverse.dropWhile Char.isWhitespace).reverse

/-- Parse an unsigned decimal numeral `digits [. digits]` (at least one digit
overall), returning its integer part; `none` on any other shape. -/
def parseUnsigned (cs : List Char) : Option Nat :=
  match cs.dropWhile Char.isDigit with
  | [] => if cs.takeWhile Char.isDigit = [] then none else some (digitsVal (cs.takeWhile Char.isDigit))
  | '.' :: fr =>
    if fr.all Char.isDigit ∧ (cs.takeWhile Char.isDigit ≠ [] ∨ fr ≠ []) then
      some (digitsVal (cs.takeWhile Char.isDigit))
    else none
  | _ => none

/-- Signed decimal numeral, truncated toward zero, modelling
`int(float(s))` on plain decimal numerals (parse failure is `none`). -/
def parseDecimal : List Char → Option Int
  | '-' :: t => (parseUnsigned t).map (fun n => -(n : Int))
  | '+' :: t => (parseUnsigned t).map (fun n => (n : Int))
  | cs => (parseUnsigned cs).map (fun n => (n : Int))

/-- Value-level model of `int(float(str(price).replace("元", "").strip()))`
from `_filter_by_budget`: every occurrence of the currency unit is removed,
outer whitespace stripped, and the remainder parsed as a plain decimal
numeral, on which the model is exact; all other inputs are classified as
unknown (`none`).  This models only the produced value — the exception
behavior of the same parse, including the uncaught OverflowError on
infinite floats, is modelled by `parseCostExc` and the `_exc` variants. -/
def parseCost (s : String) : Option Int :=
  parseDecimal (trimChars (s.data.filter (fun ch => ch != '元')))

/-- The known parsed cost of a venue: the branch structure of
`_filter_by_budget` treats a falsy cost, the sentinel "暂无", and a parse
failure identically as unknown (`none`). -/
def knownPrice (r : Restaurant) : Option Int :=
  if r.cost = "" ∨ r.cost = "暂无" then none else parseCost r.cost

/-- The per-venue acceptance test of `_filter_by_budget`: a known cost is
kept iff it is ≤ the ceiling; an unknown cost is kept iff `includeUnknown`. -/
def keepsVenue (budgetMax : Int) (includeUnknown : Bool) (r : Restaurant) : Bool :=
  match knownPrice r with
  | some n => decide (n ≤ budgetMax)
  | none => includeUnknown

/-- `_filter_by_budget(restaurants, budget_max, include_unknown)`: one pass
over the list appending the venues that pass the acceptance test. -/
def filter_by_budget (restaurants : List Restaurant) (budgetMax : Int)
    (includeUnknown : Bool) : List Restaurant :=
  restaurants.filter (keepsVenue budgetMax includeUnknown)

/-- The `food_types` POI-code dictionary of the root service. -/
def get_type_code (c : String) : Option String :=
  match c with
  | "中餐" => some ("050100")
  | "川菜" => some ("050116")
  | "粤菜" => some ("050117")
  | "湘菜" => some ("050119")
  | "东北菜" => some ("050105")
  | "火锅" => some ("050300")
  | "海鲜" => some ("050115")
  | "西餐" => some ("050200")
  | "日料" => some ("050201")
  | "韩餐" => some ("050202")
  | "快餐" => some ("050301")
  | "咖啡厅" => some ("050500")
  | "茶馆" => some ("050502")
  | "甜点" => some ("050400")
  | "小吃" => some ("050303")
  | "烧烤" => some ("050304")
  | _ => none

/-- The `taste_keywords` dictionary: ordered cuisine lists per taste
(`get_cuisines_by_taste` returns `[]` for unmapped tastes). -/
def get_cuisines_by_taste (t : String) : List String :=
  if t = "清淡" then ["粤菜", "日料", "素食"]
  else if t = "辣" then ["川菜", "湘菜", "火锅"]
  else if t = "鲜" then ["海鲜", "日料", "粤菜"]
  else []

/-- Taste lookup lifted to the `Optional[str]` argument of `smart_search`. -/
def tasteCuisines (t : Option String) : List String :=
  match t with
  | some s => get_cuisines_by_taste s
  | none => []

/-- Type-code lookup lifted to `Optional[str]`. -/
def getTypeCodeOpt (c : Option String) : Option String :=
  match c with
  | some s => get_type_code s
  | none => none

/-- The keyword/type selection prologue of `smart_search` (priority:
explicit cuisine, then free-text keywords, then the first taste-mapped
cuisine; otherwise no keyword and no type). -/
def selectQuery (taste cuisine kw : Option String) : Option String × Option String :=
  if strTruthy cuisine then (cuisine, getTypeCodeOpt cuisine)
  else if strTruthy kw then (kw, none)
  else if strTruthy taste then
    match tasteCuisines taste with
    | [] => (none, none)
    | c :: _ => (some c, get_type_code c)
  else (none, none)

/-- One oracle call: the (keywords, types) pair handed to `_do_search`. -/
abbrev Call := Option String × Option String

/-- The provider environment: `_do_search` for a fixed location/city. -/
abbrev Oracle := Option String → Option String → SearchResult

/-- The inner dedup append of the multi-category merge: a venue is appended
and its id recorded iff its id is not yet in the seen set. -/
def dedupAppend (acc : List Restaurant × List String) (r : Restaurant) :
    List Restaurant × List String :=
  if r.id ∈ acc.2 then acc else (acc.1 ++ [r], acc.2 ++ [r.id])

/-- One merge iteration: search one additional cuisine, fold its venues into
the accumulated (venues, seen ids) pair, and record the call. -/
def mergeStep (oracle : Oracle) (acc : List Restaurant × List String × List Call)
    (c : String) : List Restaurant × List String × List Call :=
  ((((oracle (some c) (get_type_code c)).restaurants).foldl dedupAppend (acc.1, acc.2.1)).1,
   (((oracle (some c) (get_type_code c)).restaurants).foldl dedupAppend (acc.1, acc.2.1)).2,
   acc.2.2 ++ [((some c : Option String), get_type_code c)])

/-- The multi-category merge block of `smart_search` (lines 436-447): when a
taste was given without an explicit cuisine and the primary result is
non-empty, has fewer than 10 venues, and the taste maps to more than one
cuisine, each remaining cuisine is searched in order and its unseen venues
appended; the count is then recomputed. -/
def mergePhase (oracle : Oracle) (taste cuisine : Option String)
    (primary : SearchResult) : SearchResult × List Call :=
  if strTruthy taste ∧ ¬ strTruthy cuisine ∧ primary.restaurants ≠ [] then
    if 1 < (tasteCuisines taste).length ∧ primary.restaurants.length < 10 then
      ({ primary with
          restaurants := ((tasteCuisines taste).tail.foldl (mergeStep oracle)
            (primary.restaurants, primary.restaurants.map (fun r => r.id), [])).1,
          count := some ((tasteCuisines taste).tail.foldl (mergeStep oracle)
            (primary.restaurants, primary.restaurants.map (fun r => r.id), [])).1.length },
       ((tasteCuisines taste).tail.foldl (mergeStep oracle)
            (primary.restaurants, primary.restaurants.map (fun r => r.id), [])).2.2)
    else (primary, [])
  else (primary, [])

/-- Relaxation note attached when an empty primary result is scope-broadened. -/
def broadenMsgA : String := "已扩大搜索范围（放宽口味/菜系限制）"

/-- Relaxation note attached by budget strategy 4 (scope broadening). -/
def broadenMsgB : String := "已扩大搜索范围（去除口味/菜系限制）"

/-- Relaxation note attached by budget strategy 3 (include unknown cost). -/
def unknownMsg : String := "包含了部分价格未知的餐厅"

/-- Relaxation note attached by the terminal fallback (strategy 5). -/
def fallbackMsg : String := "未找到符合预算的餐厅，以下为附近热门餐厅参考"

/-- Strategy-2 note naming the loosened ceiling. -/
def relaxNote (rb : Int) : String := "已放宽预算至" ++ toString rb ++ "元"

/-- Joining a new relaxation note onto the optional existing trail with a
full-width comma (a falsy existing trail is discarded, as in Python). -/
def joinRelaxed (old : Option String) (msg : String) : String :=
  match old with
  | none => msg
  | some s => if s = "" then msg else s ++ "，" ++ msg

/-- The generic-fallback search call `("美食", "050000")`. -/
def broadenCall : Call := ((some "美食" : Option String), (some "050000" : Option String))

/-- The empty-result scope broadening of `smart_search` (lines 449-454):
when the candidate list is empty and a keyword was used, one generic search
is issued; a non-empty outcome replaces the result and is marked broadened,
an empty outcome leaves the original result in place. -/
def broadenPhase (oracle : Oracle) (fk : Option String) (result : SearchResult) :
    SearchResult × List Call :=
  if result.restaurants = [] ∧ strTruthy fk = true then
    if (oracle (some "美食") (some "050000")).restaurants = [] then (result, [broadenCall])
    else ({ oracle (some "美食") (some "050000") with relaxed := some broadenMsgA }, [broadenCall])
  else (result, [])

/-- Keyword selection, primary search, multi-category merge and empty-result
scope broadening of `smart_search` (lines 417-454), with the call trace. -/
def phaseA (oracle : Oracle) (taste cuisine kw : Option String) :
    SearchResult × List Call :=
  let fk := (selectQuery taste cuisine kw).1
  let ft := (selectQuery taste cuisine kw).2
  let m := mergePhase oracle taste cuisine (oracle fk ft)
  let br := broadenPhase oracle fk m.1
  (br.1, (fk, ft) :: (m.2 ++ br.2))

/-- `int(budget_max * 1.5)`: the loosened ceiling, truncated toward zero. -/
def relaxedBudget (b : Int) : Int :=
  if 0 ≤ b then ((3 * b.toNat) / 2 : Nat) else -(((3 * (-b).toNat) / 2 : Nat))

/-- The terminal fallback (lines 503-508): the first five pre-relaxation
candidates with the no-match notice joined onto the trail. -/
def terminalResult (result : SearchResult) : SearchResult :=
  { result with
      restaurants := result.restaurants.take 5,
      count := some (result.restaurants.take 5).length,
      relaxed := some (joinRelaxed result.relaxed fallbackMsg) }

/-- Budget strategy 4 plus the terminal fallback (lines 492-508): when a
keyword was used, one generic search is issued and filtered with the
original ceiling including unknown costs; on any failure the terminal
fallback fires. -/
def stage4 (oracle : Oracle) (fk : Option String) (b : Int) (result : SearchResult) :
    SearchResult × List Call :=
  if strTruthy fk then
    if (oracle (some "美食") (some "050000")).restaurants ≠ [] then
      if filter_by_budget (oracle (some "美食") (some "050000")).restaurants b true ≠ [] then
        ({ oracle (some "美食") (some "050000") with
            restaurants := filter_by_budget (oracle (some "美食") (some "050000")).restaurants b true,
            count := some (filter_by_budget (oracle (some "美食") (some "050000")).restaurants b true).length,
            relaxed := some broadenMsgB }, [broadenCall])
      else (terminalResult result, [broadenCall])
    else (terminalResult result, [broadenCall])
  else (terminalResult result, [])

/-- The budget relaxation ladder of `smart_search` (lines 463-508): strict
match, loosened ceiling, include-unknown, scope broadening, terminal
fallback — first non-empty outcome wins. -/
def budgetLadder (oracle : Oracle) (fk : Option String) (b : Int)
    (result : SearchResult) : SearchResult × List Call :=
  if filter_by_budget result.restaurants b false ≠ [] then
    ({ result with
        restaurants := filter_by_budget result.restaurants b false,
        count := some (filter_by_budget result.restaurants b false).length }, [])
  else if filter_by_budget result.restaurants (relaxedBudget b) false ≠ [] then
    ({ result with
        restaurants := filter_by_budget result.restaurants (relaxedBudget b) false,
        count := some (filter_by_budget result.restaurants (relaxedBudget b) false).length,
        relaxed := some (joinRelaxed result.relaxed (relaxNote (relaxedBudget b))) }, [])
  else if filter_by_budget result.restaurants b true ≠ [] then
    ({ result with
        restaurants := filter_by_budget result.restaurants b true,
        count := some (filter_by_budget result.restaurants b true).length,
        relaxed := some (joinRelaxed result.relaxed unknownMsg) }, [])
  else stage4 oracle fk b result

/-- `smart_search` of the root service: phase A, then — only when the
candidate list is non-empty and the budget ceiling is truthy (present and
non-zero) — the budget relaxation ladder.  The second component is the
ordered trace of `_do_search` calls issued. -/
def smart_search (oracle : Oracle) (taste cuisine kw : Option String)
    (budgetMax : Option Int) : SearchResult × List Call :=
  if (phaseA oracle taste cuisine kw).1.restaurants = [] then phaseA oracle taste cuisine kw
  else
    match budgetMax with
    | none => phaseA oracle taste cuisine kw
    | some b =>
      if b = 0 then phaseA oracle taste cuisine kw
      else
        ((budgetLadder oracle (selectQuery taste cuisine kw).1 b (phaseA oracle taste cuisine kw).1).1,
         (phaseA oracle taste cuisine kw).2 ++
           (budgetLadder oracle (selectQuery taste cuisine kw).1 b (phaseA oracle taste cuisine kw).1).2)

/-- A raw POI entry as the engine reads it: `id` and `name` from the POI
object, `cost` from the nested `business` object, each possibly absent
(`poi.get` / `business.get`). -/
structure Poi where
  id : Option String
  name : Option String
  cost : Option String
deriving DecidableEq, Repr

/-- `_parse_single_poi` restricted to the fields the engine inspects:
missing ids default to `""`, missing names to `"未知"`, and a missing or
falsy cost to the sentinel `"暂无"`. -/
def parse_single_poi (p : Poi) : Restaurant :=
  { id := p.id.getD "",
    name := p.name.getD "未知",
    cost := match p.cost with
            | none => "暂无"
            | some s => if s = "" then "暂无" else s }

/-- The decoded provider response body: `status` and `info` possibly absent,
plus the POI list (`data.get("pois", [])`). -/
structure ProviderData where
  status : Option String
  info : Option String
  pois : List Poi
deriving DecidableEq, Repr

/-- `search_nearby` (lines 81-96): a transport exception becomes an
error-marked empty result; a non-"1" status becomes an error-marked empty
result carrying the provider's `info` message; a success parses the POIs. -/
def search_nearby (resp : Except String ProviderData) : SearchResult :=
  match resp with
  | Except.error e => { restaurants := [], count := none, error := some e, relaxed := none }
  | Except.ok d =>
    if d.status = some "1" then
      { restaurants := d.pois.map parse_single_poi,
        count := some (d.pois.map parse_single_poi).length,
        error := none, relaxed := none }
    else
      { restaurants := [], count := none, error := some (d.info.getD ("搜索失败")), relaxed := none }

/-- Keyword selection of the amap single-pass `smart_search`
(`cuisine or keywords`, then the first taste-mapped cuisine, then the
generic term; the amap file carries the identical taste dictionary). -/
def amap_select_query (taste cuisine kw : Option String) : String :=
  if strTruthy (if strTruthy cuisine then cuisine else kw) then
    (if strTruthy cuisine then cuisine else kw).getD ("美食")
  else if strTruthy taste then
    match tasteCuisines taste with
    | [] => "美食"
    | c :: _ => c
  else "美食"

/-- The amap single-pass `smart_search` (src/amap, lines 366-403): one
search, then — when the result is non-empty and the ceiling truthy — one
budget filter pass with `include_unknown=True` whose outcome replaces the
result only when non-empty; the amap `_filter_by_budget` is textually
identical to the root one. -/
def amap_smart_search (oracle : String → SearchResult) (taste cuisine kw : Option String)
    (budgetMax : Option Int) : SearchResult :=
  if (oracle (amap_select_query taste cuisine kw)).restaurants = [] then
    oracle (amap_select_query taste cuisine kw)
  else
    match budgetMax with
    | none => oracle (amap_select_query taste cuisine kw)
    | some b =>
      if b = 0 then oracle (amap_select_query taste cuisine kw)
      else
        if filter_by_budget (oracle (amap_select_query taste cuisine kw)).restaurants b true = [] then
          oracle (amap_select_query taste cuisine kw)
        else
          { oracle (amap_select_query taste cuisine kw) with
              restaurants := filter_by_budget (oracle (amap_select_query taste cuisine kw)).restaurants b true,
              count := some (filter_by_budget (oracle (amap_select_query taste cuisine kw)).restaurants b true).length }

/-- An empty provider result. -/
def emptyResult : SearchResult :=
  { restaurants := [], count := some 0, error := none, relaxed := none }

/-- A provider result wrapping a concrete venue list. -/
def resultOf (rs : List Restaurant) : SearchResult :=
  { restaurants := rs, count := some rs.length, error := none, relaxed := none }

/-- Test venue with known cost 50. -/
def v50 : Restaurant := { id := "R50", name := "a", cost := "50元" }

/-- Test venue with known cost 40. -/
def v40 : Restaurant := { id := "R40", name := "b", cost := "40元" }

/-- Test venue with known cost 100. -/
def v100 : Restaurant := { id := "R100", name := "c", cost := "100元" }

/-- Test venue with unknown cost. -/
def vU : Restaurant := { id := "RU", name := "d", cost := "暂无" }

/-- Oracle for the C1 witness: the primary cuisine search finds three
venues; every other search is empty. -/
def oracle1 : Oracle := fun k _ =>
  if k = some ("川菜") then resultOf [v50, v100, vU] else emptyResult

/-- Oracle for the C2 counterexample: the keyword search finds one venue;
every other search is empty. -/
def oracle2 : Oracle := fun k _ =>
  if k = some ("面食") then resultOf [vU] else emptyResult

/-- Oracle for the C4 witness: the primary cuisine search finds one venue of
cost 40; every other search is empty. -/
def oracle4 : Oracle := fun k _ =>
  if k = some ("川菜") then resultOf [v40] else emptyResult

/-- Oracle for the C5 witness: each merge search returns overlapping venues. -/
def oracle5 : Oracle := fun _ _ => resultOf [v40, vU]

/-- Primary result for the C5 witness. -/
def primary5 : SearchResult := resultOf [v50, v40]

/-- Oracle for the C6 witness: every search is empty. -/
def oracle6 : Oracle := fun _ _ => emptyResult

/-- Venues for the C7 witness: six venues, all of known cost 100. -/
def sixExpensive : List Restaurant :=
  [{ id := "E1", name := "e", cost := "100元" },
   { id := "E2", name := "e", cost := "100元" },
   { id := "E3", name := "e", cost := "100元" },
   { id := "E4", name := "e", cost := "100元" },
   { id := "E5", name := "e", cost := "100元" },
   { id := "E6", name := "e", cost := "100元" }]

/-- Oracle for the C7 witness: the primary cuisine search finds six venues
over budget; the generic fallback search is empty. -/
def oracle7 : Oracle := fun k _ =>
  if k = some ("川菜") then resultOf sixExpensive else emptyResult

/-- Amap oracle returning a single unknown-cost venue. -/
def amapOracleU : String → SearchResult := fun _ => resultOf [vU]

/-- Amap oracle returning a single venue of known cost 100. -/
def amapOracleE : String → SearchResult := fun _ => resultOf [v100]

/-- Outcome of the guarded parse `int(float(str(price).replace("元", "").strip()))`
inside the try-block of `_filter_by_budget`, distinguishing how it can raise. -/
inductive CostParse where
  | known (n : Int)
  | caught
  | uncaught
deriving DecidableEq, Repr

/-- Drop an optional leading sign, as Python `float()` does. -/
def dropSign : List Char → List Char
  | '-' :: t => t
  | '+' :: t => t
  | cs => cs

/-- The infinity spellings accepted by Python `float()`: an optional sign
then "inf" or "infinity", case-insensitive. -/
def isInfChars (cs : List Char) : Bool :=
  ((dropSign cs).map Char.toLower = ['i', 'n', 'f']) ||
  ((dropSign cs).map Char.toLower = ['i', 'n', 'f', 'i', 'n', 'i', 't', 'y'])

/-- Exception-level model of the cost parse: `known n` when
`int(float(...))` returns `n`; `caught` when the parse raises ValueError or
TypeError (a non-numeric string, or `int(nan)`), which
`except (ValueError, TypeError)` absorbs; `uncaught` when `float()` returns
an infinity (the "inf"/"infinity" spellings) and `int()` then raises
OverflowError, which the except clause does not name.  Plain decimal
numerals are modelled exactly; Python would additionally overflow numerals
beyond the double range and accept scientific notation and underscore
separators, cases this model folds into `known` and `caught` respectively. -/
def parseCostExc (s : String) : CostParse :=
  if isInfChars (trimChars (s.data.filter (fun ch => ch != '元'))) then CostParse.uncaught
  else
    match parseDecimal (trimChars (s.data.filter (fun ch => ch != '元'))) with
    | some n => CostParse.known n
    | none => CostParse.caught

/-- `_filter_by_budget` with its exception behavior made explicit: the loop
accumulates accepted venues in order, and an uncaught OverflowError from a
cost parse aborts the whole call. -/
def filter_by_budget_exc : List Restaurant → Int → Bool → Except String (List Restaurant)
  | [], _, _ => Except.ok []
  | r :: rs, b, inc =>
    if r.cost = "" ∨ r.cost = "暂无" then
      match filter_by_budget_exc rs b inc with
      | Except.error e => Except.error e
      | Except.ok tl => Except.ok (if inc then r :: tl else tl)
    else
      match parseCostExc r.cost with
      | CostParse.uncaught => Except.error "OverflowError"
      | CostParse.caught =>
        match filter_by_budget_exc rs b inc with
        | Except.error e => Except.error e
        | Except.ok tl => Except.ok (if inc then r :: tl else tl)
      | CostParse.known n =>
        match filter_by_budget_exc rs b inc with
        | Except.error e => Except.error e
        | Except.ok tl => Except.ok (if n ≤ b then r :: tl else tl)

/-- Budget strategy 4 and the terminal fallback with exception propagation. -/
def stage4_exc (oracle : Oracle) (fk : Option String) (b : Int) (result : SearchResult) :
    Except String (SearchResult × List Call) :=
  if strTruthy fk then
    if (oracle (some "美食") (some "050000")).restaurants ≠ [] then
      match filter_by_budget_exc (oracle (some "美食") (some "050000")).restaurants b true with
      | Except.error e => Except.error e
      | Except.ok f4 =>
        if f4 ≠ [] then
          Except.ok
            ({ oracle (some "美食") (some "050000") with
                restaurants := f4,
                count := some f4.length,
                relaxed := some broadenMsgB },
             [broadenCall])
        else Except.ok (terminalResult result, [broadenCall])
    else Except.ok (terminalResult result, [broadenCall])
  else Except.ok (terminalResult result, [])

/-- The budget relaxation ladder with exception propagation from the cost
parses (the ladder is the only part of `smart_search` that parses costs). -/
def budgetLadder_exc (oracle : Oracle) (fk : Option String) (b : Int)
    (result : SearchResult) : Except String (SearchResult × List Call) :=
  match filter_by_budget_exc result.restaurants b false with
  | Except.error e => Except.error e
  | Except.ok f1 =>
    if f1 ≠ [] then
      Except.ok ({ result with restaurants := f1, count := some f1.length }, [])
    else
      match filter_by_budget_exc result.restaurants (relaxedBudget b) false with
      | Except.error e => Except.error e
      | Except.ok f2 =>
        if f2 ≠ [] then
          Except.ok
            ({ result with
                restaurants := f2,
                count := some f2.length,
                relaxed := some (joinRelaxed result.relaxed (relaxNote (relaxedBudget b))) },
             [])
        else
          match filter_by_budget_exc result.restaurants b true with
          | Except.error e => Except.error e
          | Except.ok f3 =>
            if f3 ≠ [] then
              Except.ok
                ({ result with
                    restaurants := f3,
                    count := some f3.length,
                    relaxed := some (joinRelaxed result.relaxed unknownMsg) },
                 [])
            else stage4_exc oracle fk b result

/-- `smart_search` with exception propagation: identical control flow to
`smart_search`, with each budget filter able to raise. -/
def smart_search_exc (oracle : Oracle) (taste cuisine kw : Option String)
    (budgetMax : Option Int) : Except String (SearchResult × List Call) :=
  if (phaseA oracle taste cuisine kw).1.restaurants = [] then
    Except.ok (phaseA oracle taste cuisine kw)
  else
    match budgetMax with
    | none => Except.ok (phaseA oracle taste cuisine kw)
    | some b =>
      if b = 0 then Except.ok (phaseA oracle taste cuisine kw)
      else
        match budgetLadder_exc oracle (selectQuery taste cuisine kw).1 b
            (phaseA oracle taste cuisine kw).1 with
        | Except.error e => Except.error e
        | Except.ok lad => Except.ok (lad.1, (phaseA oracle taste cuisine kw).2 ++ lad.2)

/-- Test venue whose provider cost string is an infinity spelling. -/
def vInf : Restaurant := { id := "RI", name := "f", cost := "inf" }

/-- Oracle for the C8 failing input: the primary cuisine search finds the
infinite-cost venue; every other search is empty. -/
def oracleInf : Oracle := fun k _ =>
  if k = some ("川菜") then resultOf [vInf] else emptyResult

/-- A filter pass is empty exactly when no venue passes the acceptance test. -/
theorem filter_by_budget_eq_nil (rs : List Restaurant) (b : Int) (inc : Bool)
    (h : ∀ r ∈ rs, keepsVenue b inc r = false) : filter_by_budget rs b inc = [] := by
  rw [filter_by_budget, List.filter_eq_nil_iff]
  intro r hr
  rw [h r hr]
  simp

/-- A venue passing the acceptance test lands in the filter output. -/
theorem mem_filter_by_budget {rs : List Restaurant} {b : Int} {inc : Bool} {r : Restaurant}
    (hr : r ∈ rs) (hk : keepsVenue b inc r = true) : r ∈ filter_by_budget rs b inc :=
  List.mem_filter.mpr ⟨hr, hk⟩

/-- A venue rejected under the strict flag is rejected whatever the ceiling
test said of a looser flag: strictness only drops unknown-cost venues. -/
theorem keeps_strict_of_keeps_incl {b : Int} {r : Restaurant}
    (h : keepsVenue b true r = false) : keepsVenue b false r = false := by
  unfold keepsVenue at h ⊢
  cases hk : knownPrice r with
  | none => simp [hk] at h
  | some n => simp only [hk] at h ⊢; exact h

/-- C10: calling smart_search with budget_max = 0 behaves identically to
supplying no budget ceiling at all: the entire budget ladder is skipped and
the (possibly merged or scope-broadened) candidate list is returned
unfiltered, because the budget check tests truthiness of the ceiling rather
than its presence. -/
theorem c10_zero_budget (oracle : Oracle) (taste cuisine kw : Option String) :
    smart_search oracle taste cuisine kw (some 0) =
      smart_search oracle taste cuisine kw none := by
  simp [smart_search]

/-- C1: for every truthy budget ceiling and every candidate list (the
phase-A output) containing at least one venue of known parsed cost within
the ceiling, strategy 1 returns exactly the venues of known cost within the
ceiling in their original order, leaves the relaxation trail unchanged, and
issues no further search. -/
theorem c1_strict_filter (oracle : Oracle) (taste cuisine kw : Option String) (b : Int)
    (hb : b ≠ 0)
    (hex : ∃ r ∈ (phaseA oracle taste cuisine kw).1.restaurants, keepsVenue b false r = true) :
    (smart_search oracle taste cuisine kw (some b)).1.restaurants
        = filter_by_budget (phaseA oracle taste cuisine kw).1.restaurants b false ∧
    (smart_search oracle taste cuisine kw (some b)).1.relaxed
        = (phaseA oracle taste cuisine kw).1.relaxed ∧
    (smart_search oracle taste cuisine kw (some b)).2
        = (phaseA oracle taste cuisine kw).2 := by
  obtain ⟨r, hr, hkeep⟩ := hex
  have hne : (phaseA oracle taste cuisine kw).1.restaurants ≠ [] := by
    intro h
    rw [h] at hr
    exact List.not_mem_nil r hr
  have hf1 : filter_by_budget (phaseA oracle taste cuisine kw).1.restaurants b false ≠ [] := by
    intro h
    have := mem_filter_by_budget hr hkeep
    rw [h] at this
    exact List.not_mem_nil r this
  rw [smart_search, if_neg hne, if_neg hb, budgetLadder, if_pos hf1]
  exact ⟨rfl, rfl, by simp⟩

/-- C4: when no phase-A candidate has known cost within the truthy ceiling
but some candidate has known cost within the loosened, integer-truncated
ceiling, strategy 2 fires: the result is the candidates filtered at the
loosened ceiling still excluding unknown costs, and a note naming the new
ceiling is joined onto the relaxation trail. -/
theorem c4_loosened_budget (oracle : Oracle) (taste cuisine kw : Option String) (b : Int)
    (hb : b ≠ 0)
    (h1 : ∀ r ∈ (phaseA oracle taste cuisine kw).1.restaurants, keepsVenue b false r = false)
    (h2 : ∃ r ∈ (phaseA oracle taste cuisine kw).1.restaurants,
            keepsVenue (relaxedBudget b) false r = true) :
    (smart_search oracle taste cuisine kw (some b)).1.restaurants
        = filter_by_budget (phaseA oracle taste cuisine kw).1.restaurants (relaxedBudget b) false ∧
    (smart_search oracle taste cuisine kw (some b)).1.relaxed
        = some (joinRelaxed (phaseA oracle taste cuisine kw).1.relaxed
            (relaxNote (relaxedBudget b))) := by
  obtain ⟨r, hr, hkeep⟩ := h2
  have hne : (phaseA oracle taste cuisine kw).1.restaurants ≠ [] := by
    intro h
    rw [h] at hr
    exact List.not_mem_nil r hr
  have hf1 : filter_by_budget (phaseA oracle taste cuisine kw).1.restaurants b false = [] :=
    filter_by_budget_eq_nil _ _ _ h1
  have hf2 : filter_by_budget (phaseA oracle taste cuisine kw).1.restaurants
      (relaxedBudget b) false ≠ [] := by
    intro h
    have := mem_filter_by_budget hr hkeep
    rw [h] at this
    exact List.not_mem_nil r this
  rw [smart_search, if_neg hne, if_neg hb, budgetLadder,
    if_neg (by simp [hf1]), if_pos hf2]
  exact ⟨rfl, rfl⟩

/-- Joining a non-empty note onto any existing trail yields a non-empty trail. -/
theorem joinRelaxed_ne_empty (ex : Option String) (m : String) (hm : m ≠ "") :
    joinRelaxed ex m ≠ "" := by
  cases ex with
  | none => exact hm
  | some s =>
    show (if s = "" then m else s ++ "，" ++ m) ≠ ""
    by_cases hs : s = ""
    · rw [if_pos hs]; exact hm
    · rw [if_neg hs]
      intro hcontra
      have hlen := congrArg String.length hcontra
      rw [String.length_append, String.length_append] at hlen
      have h1 : ("，" : String).length = 1 := rfl
      have h0 : ("" : String).length = 0 := rfl
      omega

/-- C7: when every budget strategy fails — no candidate within the original
or loosened ceiling even counting unknown costs, and the scope-broadened
search unavailable, empty, or also without matches — smart_search returns
the first five pre-relaxation candidates (hence at most five venues) and a
non-empty relaxation note. -/
theorem c7_terminal_fallback (oracle : Oracle) (taste cuisine kw : Option String) (b : Int)
    (hb : b ≠ 0)
    (hne : (phaseA oracle taste cuisine kw).1.restaurants ≠ [])
    (h3 : ∀ r ∈ (phaseA oracle taste cuisine kw).1.restaurants, keepsVenue b true r = false)
    (h2 : ∀ r ∈ (phaseA oracle taste cuisine kw).1.restaurants,
            keepsVenue (relaxedBudget b) false r = false)
    (h4 : strTruthy (selectQuery taste cuisine kw).1 = false
          ∨ (oracle (some "美食") (some "050000")).restaurants = []
          ∨ ∀ r ∈ (oracle (some "美食") (some "050000")).restaurants, keepsVenue b true r = false) :
    (smart_search oracle taste cuisine kw (some b)).1.restaurants
        = (phaseA oracle taste cuisine kw).1.restaurants.take 5 ∧
    (smart_search oracle taste cuisine kw (some b)).1.restaurants.length ≤ 5 ∧
    ∃ s, (smart_search oracle taste cuisine kw (some b)).1.relaxed = some s ∧ s ≠ "" := by
  have hf3 : filter_by_budget (phaseA oracle taste cuisine kw).1.restaurants b true = [] :=
    filter_by_budget_eq_nil _ _ _ h3
  have hf1 : filter_by_budget (phaseA oracle taste cuisine kw).1.restaurants b false = [] :=
    filter_by_budget_eq_nil _ _ _ (fun r hr => keeps_strict_of_keeps_incl (h3 r hr))
  have hf2 : filter_by_budget (phaseA oracle taste cuisine kw).1.restaurants
      (relaxedBudget b) false = [] := filter_by_budget_eq_nil _ _ _ h2
  have hkey : (smart_search oracle taste cuisine kw (some b)).1
      = terminalResult (phaseA oracle taste cuisine kw).1 := by
    rw [smart_search, if_neg hne, if_neg hb, budgetLadder,
      if_neg (by simp [hf1]), if_neg (by simp [hf2]), if_neg (by simp [hf3])]
    rcases h4 with h4a | h4b | h4c
    · rw [stage4, if_neg (by simp [h4a])]
    · rw [stage4]
      by_cases ht : strTruthy (selectQuery taste cuisine kw).1 = true
      · rw [if_pos ht, if_neg (by simp [h4b])]
      · rw [if_neg ht]
    · have hf4 : filter_by_budget (oracle (some "美食") (some "050000")).restaurants b true = [] :=
        filter_by_budget_eq_nil _ _ _ h4c
      rw [stage4]
      by_cases ht : strTruthy (selectQuery taste cuisine kw).1 = true
      · rw [if_pos ht]
        by_cases hbr : (oracle (some "美食") (some "050000")).restaurants = []
        · rw [if_neg (by simp [hbr])]
        · rw [if_pos hbr, if_neg (by simp [hf4])]
      · rw [if_neg ht]
  rw [hkey]
  refine ⟨rfl, List.length_take_le 5 _, joinRelaxed (phaseA oracle taste cuisine kw).1.relaxed fallbackMsg, rfl, ?_⟩
  exact joinRelaxed_ne_empty _ _ (by decide)

/-- C6: when the primary search is empty and a query term was used, exactly
one generic-fallback re-search is issued immediately after the primary call
and before any budget logic, for every (even absent) budget ceiling; if the
re-search is also empty the untouched primary result is returned verbatim
with no further relaxation, and if it is non-empty the broadened result is
marked with the scope-broadening note. -/
theorem c6_scope_broadening (oracle : Oracle) (taste cuisine kw : Option String)
    (bm : Option Int)
    (hempty : (oracle (selectQuery taste cuisine kw).1 (selectQuery taste cuisine kw).2).restaurants = [])
    (hfk : strTruthy (selectQuery taste cuisine kw).1 = true) :
    (smart_search oracle taste cuisine kw bm).2.take 2
        = [((selectQuery taste cuisine kw).1, (selectQuery taste cuisine kw).2), broadenCall] ∧
    ((oracle (some "美食") (some "050000")).restaurants = [] →
      smart_search oracle taste cuisine kw bm
        = (oracle (selectQuery taste cuisine kw).1 (selectQuery taste cuisine kw).2,
           [((selectQuery taste cuisine kw).1, (selectQuery taste cuisine kw).2), broadenCall])) ∧
    ((oracle (some "美食") (some "050000")).restaurants ≠ [] →
      (phaseA oracle taste cuisine kw).1
        = { oracle (some "美食") (some "050000") with relaxed := some broadenMsgA }) := by
  have hmp : mergePhase oracle taste cuisine
      (oracle (selectQuery taste cuisine kw).1 (selectQuery taste cuisine kw).2)
      = (oracle (selectQuery taste cuisine kw).1 (selectQuery taste cuisine kw).2, []) := by
    rw [mergePhase, if_neg]
    intro h
    exact h.2.2 hempty
  by_cases hbro : (oracle (some "美食") (some "050000")).restaurants = []
  · have hpa : phaseA oracle taste cuisine kw
        = (oracle (selectQuery taste cuisine kw).1 (selectQuery taste cuisine kw).2,
           [((selectQuery taste cuisine kw).1, (selectQuery taste cuisine kw).2), broadenCall]) := by
      rw [phaseA]
      simp only [hmp]
      rw [broadenPhase, if_pos ⟨hempty, hfk⟩, if_pos hbro]
      rfl
    have hss : smart_search oracle taste cuisine kw bm = phaseA oracle taste cuisine kw := by
      rw [smart_search.eq_def, if_pos (by rw [hpa]; exact hempty)]
    refine ⟨?_, fun _ => by rw [hss, hpa], fun hcontra => absurd hbro hcontra⟩
    rw [hss, hpa]
    rfl
  · have hpa : phaseA oracle taste cuisine kw
        = ({ oracle (some "美食") (some "050000") with relaxed := some broadenMsgA },
           [((selectQuery taste cuisine kw).1, (selectQuery taste cuisine kw).2), broadenCall]) := by
      rw [phaseA]
      simp only [hmp]
      rw [broadenPhase, if_pos ⟨hempty, hfk⟩, if_neg hbro]
      rfl
    refine ⟨?_, fun h => absurd h hbro, fun _ => by rw [hpa]⟩
    have hres : (phaseA oracle taste cuisine kw).1.restaurants ≠ [] := by
      rw [hpa]
      exact hbro
    cases bm with
    | none =>
      rw [smart_search, if_neg hres, hpa]
      rfl
    | some b =>
      by_cases hb : b = 0
      · rw [smart_search, if_neg hres, if_pos hb, hpa]
        rfl
      · rw [smart_search, if_neg hres, if_neg hb, hpa]
        rfl

/-- For a non-negative ceiling the loosened ceiling is at least the ceiling. -/
theorem relaxedBudget_ge (b : Int) (hb : 0 ≤ b) : b ≤ relaxedBudget b := by
  rw [relaxedBudget, if_pos hb]
  have h1 : b.toNat ≤ 3 * b.toNat / 2 := by
    rw [Nat.le_div_iff_mul_le (by norm_num)]
    omega
  have h2 : (b.toNat : Int) = b := Int.toNat_of_nonneg hb
  omega

/-- C3 amended: the ladder is monotone relative to strategy 1 — for any
non-negative ceiling, every venue accepted by the strict filter is accepted
by strategy 2's loosened-ceiling filter and by strategy 3's include-unknown
filter; the consecutive pair (2, 3) is not monotone (see the
counterexample). -/
theorem c3_ladder_monotone (rs : List Restaurant) (b : Int) (hb : 0 ≤ b) :
    (∀ r ∈ filter_by_budget rs b false, r ∈ filter_by_budget rs (relaxedBudget b) false) ∧
    (∀ r ∈ filter_by_budget rs b false, r ∈ filter_by_budget rs b true) := by
  constructor
  · intro r hr
    obtain ⟨hmem, hk⟩ := List.mem_filter.mp hr
    refine List.mem_filter.mpr ⟨hmem, ?_⟩
    unfold keepsVenue at hk ⊢
    cases hkp : knownPrice r with
    | none => simp [hkp] at hk
    | some n =>
      simp only [hkp] at hk ⊢
      simp only [decide_eq_true_eq] at hk ⊢
      exact le_trans hk (relaxedBudget_ge b hb)
  · intro r hr
    obtain ⟨hmem, hk⟩ := List.mem_filter.mp hr
    refine List.mem_filter.mpr ⟨hmem, ?_⟩
    unfold keepsVenue at hk ⊢
    cases hkp : knownPrice r with
    | none => simp [hkp] at hk
    | some n => simp only [hkp] at hk ⊢; exact hk

/-- C3 counterexample: a venue of known cost 40 with ceiling 30 is accepted
by strategy 2's filter (loosened ceiling 45, unknown excluded) but rejected
by strategy 3's filter (ceiling 30, unknown included), so consecutive ladder
steps are not superset-ordered. -/
theorem c3_cex :
    v40 ∈ filter_by_budget [v40] (relaxedBudget 30) false ∧
    v40 ∉ filter_by_budget [v40] 30 true := by decide

/-- The merge fold issues exactly one call per remaining cuisine, in order. -/
theorem mergeFold_calls (oracle : Oracle) (cs : List String) :
    ∀ (rs : List Restaurant) (seen : List String) (calls : List Call),
      (cs.foldl (mergeStep oracle) (rs, seen, calls)).2.2
        = calls ++ cs.map (fun c => ((some c : Option String), get_type_code c)) := by
  induction cs with
  | nil => intro rs seen calls; simp
  | cons c t ih =>
    intro rs seen calls
    rw [List.foldl_cons, List.map_cons]
    rw [show mergeStep oracle (rs, seen, calls) c
        = (((oracle (some c) (get_type_code c)).restaurants.foldl dedupAppend (rs, seen)).1,
           ((oracle (some c) (get_type_code c)).restaurants.foldl dedupAppend (rs, seen)).2,
           calls ++ [((some c : Option String), get_type_code c)]) from rfl]
    rw [ih]
    simp

/-- C2 amended: the multi-category merge issues its per-cuisine searches
exactly when a taste was given, no explicit cuisine was given, the primary
result is non-empty with fewer than 10 venues, and the taste maps to more
than one cuisine — a free-text keyword does not suppress it (`mergePhase`
never consults the keyword); when it runs, one search per remaining
taste-mapped cuisine is issued, in the taste's priority order. -/
theorem c2_merge_condition (oracle : Oracle) (taste cuisine : Option String)
    (primary : SearchResult) :
    (mergePhase oracle taste cuisine primary).2
      = if strTruthy taste ∧ ¬ strTruthy cuisine ∧ primary.restaurants ≠ []
           ∧ 1 < (tasteCuisines taste).length ∧ primary.restaurants.length < 10
        then (tasteCuisines taste).tail.map (fun c => ((some c : Option String), get_type_code c))
        else [] := by
  rw [mergePhase]
  by_cases h1 : strTruthy taste ∧ ¬ strTruthy cuisine ∧ primary.restaurants ≠ []
  · rw [if_pos h1]
    by_cases h2 : 1 < (tasteCuisines taste).length ∧ primary.restaurants.length < 10
    · rw [if_pos h2, if_pos ⟨h1.1, h1.2.1, h1.2.2, h2.1, h2.2⟩]
      simpa using mergeFold_calls oracle (tasteCuisines taste).tail
        primary.restaurants (primary.restaurants.map (fun r => r.id)) []
    · rw [if_neg h2, if_neg (by tauto)]
  · rw [if_neg h1, if_neg (by tauto)]

/-- C2 counterexample: with taste "辣" and the free-text keyword "面食" (and
no explicit cuisine), a one-venue primary result still triggers the merge —
the trace shows the two extra per-cuisine searches after the keyword-driven
primary call, refuting "skipped entirely when a free-text keyword was
given". -/
theorem c2_cex :
    (smart_search oracle2 (some "辣") none (some "面食") none).2
      = [((some "面食" : Option String), (none : Option String)),
         ((some "湘菜" : Option String), (some "050119" : Option String)),
         ((some "火锅" : Option String), (some "050300" : Option String))] := by decide

/-- The dedup fold keeps the seen set equal to the accumulated ids and
preserves their distinctness. -/
theorem dedupFold_inv (rs : List Restaurant) :
    ∀ (acc : List Restaurant) (seen : List String),
      seen = acc.map (fun r => r.id) → (acc.map (fun r => r.id)).Nodup →
      (rs.foldl dedupAppend (acc, seen)).2
          = ((rs.foldl dedupAppend (acc, seen)).1).map (fun r => r.id) ∧
      (((rs.foldl dedupAppend (acc, seen)).1).map (fun r => r.id)).Nodup := by
  induction rs with
  | nil =>
    intro acc seen h1 h2
    exact ⟨by simpa using h1, by simpa using h2⟩
  | cons r t ih =>
    intro acc seen h1 h2
    rw [List.foldl_cons]
    by_cases hmem : r.id ∈ seen
    · rw [show dedupAppend (acc, seen) r = (acc, seen) from by simp [dedupAppend, hmem]]
      exact ih acc seen h1 h2
    · rw [show dedupAppend (acc, seen) r = (acc ++ [r], seen ++ [r.id]) from by
        simp [dedupAppend, hmem]]
      apply ih
      · rw [h1]
        simp
      · rw [List.map_append, List.nodup_append]
        refine ⟨h2, by simp, ?_⟩
        intro a ha hb
        simp only [List.map_cons, List.map_nil, List.mem_singleton] at hb
        subst hb
        rw [h1] at hmem
        exact hmem ha

/-- The whole merge fold preserves distinctness of venue identifiers. -/
theorem mergeFold_nodup (oracle : Oracle) (cs : List String) :
    ∀ (rs : List Restaurant) (seen : List String) (calls : List Call),
      seen = rs.map (fun r => r.id) → (rs.map (fun r => r.id)).Nodup →
      ((cs.foldl (mergeStep oracle) (rs, seen, calls)).1.map (fun r => r.id)).Nodup := by
  induction cs with
  | nil => intro rs seen calls _ h2; simpa using h2
  | cons c t ih =>
    intro rs seen calls h1 h2
    rw [List.foldl_cons]
    have hstep := dedupFold_inv (oracle (some c) (get_type_code c)).restaurants rs seen h1 h2
    rw [show mergeStep oracle (rs, seen, calls) c
        = (((oracle (some c) (get_type_code c)).restaurants.foldl dedupAppend (rs, seen)).1,
           ((oracle (some c) (get_type_code c)).restaurants.foldl dedupAppend (rs, seen)).2,
           calls ++ [((some c : Option String), get_type_code c)]) from rfl]
    exact ih _ _ _ hstep.1 hstep.2

/-- C5: when the primary result has pairwise-distinct venue identifiers, the
multi-category merge output has pairwise-distinct identifiers too, whatever
the overlap between the primary and the per-cuisine result sets — every
appended venue's identifier was not previously seen. -/
theorem c5_merge_nodup (oracle : Oracle) (taste cuisine : Option String)
    (primary : SearchResult)
    (h : (primary.restaurants.map (fun r => r.id)).Nodup) :
    ((mergePhase oracle taste cuisine primary).1.restaurants.map (fun r => r.id)).Nodup := by
  rw [mergePhase]
  by_cases h1 : strTruthy taste ∧ ¬ strTruthy cuisine ∧ primary.restaurants ≠ []
  · rw [if_pos h1]
    by_cases h2 : 1 < (tasteCuisines taste).length ∧ primary.restaurants.length < 10
    · rw [if_pos h2]
      exact mergeFold_nodup oracle (tasteCuisines taste).tail
        primary.restaurants (primary.restaurants.map (fun r => r.id)) [] rfl h
    · rw [if_neg h2]
      exact h
  · rw [if_neg h1]
    exact h

/-- A `known` outcome of the exception-level parse agrees with the
value-level parse. -/
theorem parseCost_of_exc_known {s : String} {n : Int}
    (h : parseCostExc s = CostParse.known n) : parseCost s = some n := by
  rw [parseCostExc] at h
  by_cases hinf : isInfChars (trimChars (s.data.filter (fun ch => ch != '元'))) = true
  · rw [if_pos hinf] at h
    cases h
  · rw [if_neg hinf] at h
    rw [parseCost]
    cases hp : parseDecimal (trimChars (s.data.filter (fun ch => ch != '元'))) with
    | none => rw [hp] at h; cases h
    | some m =>
      rw [hp] at h
      injection h with hmn
      rw [hmn]

/-- A `caught` outcome of the exception-level parse agrees with the
value-level classification as unknown. -/
theorem parseCost_of_exc_caught {s : String}
    (h : parseCostExc s = CostParse.caught) : parseCost s = none := by
  rw [parseCostExc] at h
  by_cases hinf : isInfChars (trimChars (s.data.filter (fun ch => ch != '元'))) = true
  · rw [if_pos hinf] at h
    cases h
  · rw [if_neg hinf] at h
    rw [parseCost]
    cases hp : parseDecimal (trimChars (s.data.filter (fun ch => ch != '元'))) with
    | none => rfl
    | some m => rw [hp] at h; cases h

/-- Away from the uncaught-overflow cost strings, the exception-level filter
returns exactly the value-level filter's output: every caught parse failure
is classified unknown and never surfaces as an error. -/
theorem filter_by_budget_exc_ok (b : Int) (inc : Bool) :
    ∀ rs : List Restaurant,
      (∀ r ∈ rs, parseCostExc r.cost ≠ CostParse.uncaught) →
      filter_by_budget_exc rs b inc = Except.ok (filter_by_budget rs b inc) := by
  intro rs
  induction rs with
  | nil => intro _; rfl
  | cons r t ih =>
    intro h
    have ht := ih (fun x hx => h x (List.mem_cons_of_mem r hx))
    have hr := h r (List.mem_cons_self r t)
    rw [filter_by_budget_exc]
    by_cases hs : r.cost = "" ∨ r.cost = "暂无"
    · rw [if_pos hs, ht]
      have hkp : knownPrice r = none := by rw [knownPrice, if_pos hs]
      simp [filter_by_budget, List.filter_cons, keepsVenue, hkp]
    · rw [if_neg hs]
      cases hx : parseCostExc r.cost with
      | uncaught => exact absurd hx hr
      | caught =>
        rw [ht]
        have hkp : knownPrice r = none := by
          rw [knownPrice, if_neg hs]
          exact parseCost_of_exc_caught hx
        simp [filter_by_budget, List.filter_cons, keepsVenue, hkp]
      | known n =>
        rw [ht]
        have hkp : knownPrice r = some n := by
          rw [knownPrice, if_neg hs]
          exact parseCost_of_exc_known hx
        by_cases hnb : n ≤ b
        · simp [filter_by_budget, List.filter_cons, keepsVenue, hkp, hnb]
        · simp [filter_by_budget, List.filter_cons, keepsVenue, hkp, hnb]

/-- C8: the claim states the code's manifest intent (the except clause
absorbs parse errors so that the engine never raises), but the code slips on
one path — at the failing input, a venue whose provider cost string is
"inf" under a truthy budget ceiling, the strict filter's parse
`int(float("inf"))` raises an OverflowError that
`except (ValueError, TypeError)` does not catch, so `smart_search` crashes
instead of returning a result; every caught path still classifies the cost
as unknown (`filter_by_budget_exc_ok`). -/
theorem c8_overflow_raises :
    smart_search_exc oracleInf none (some "川菜") none (some 50)
      = Except.error "OverflowError" := by rfl

/-- C9 amended: in the amap single-pass path a truthy budget ceiling causes
exactly one filter pass with unknown-cost venues included; the filtered list
replaces the result only when non-empty — an empty filter outcome leaves the
unfiltered candidate list returned unchanged — and no relaxation note is
ever attached. -/
theorem c9_single_pass (oracle : String → SearchResult) (taste cuisine kw : Option String)
    (b : Int) (hb : b ≠ 0) :
    (amap_smart_search oracle taste cuisine kw (some b)).restaurants
      = (if filter_by_budget (oracle (amap_select_query taste cuisine kw)).restaurants b true = []
         then (oracle (amap_select_query taste cuisine kw)).restaurants
         else filter_by_budget (oracle (amap_select_query taste cuisine kw)).restaurants b true) ∧
    (amap_smart_search oracle taste cuisine kw (some b)).relaxed
      = (oracle (amap_select_query taste cuisine kw)).relaxed := by
  by_cases h0 : (oracle (amap_select_query taste cuisine kw)).restaurants = []
  · have hfil : filter_by_budget (oracle (amap_select_query taste cuisine kw)).restaurants b true
        = [] := by
      rw [h0]
      rfl
    rw [amap_smart_search, if_pos h0, if_pos hfil]
    exact ⟨rfl, rfl⟩
  · rw [amap_smart_search, if_neg h0, if_neg hb]
    by_cases hfil : filter_by_budget (oracle (amap_select_query taste cuisine kw)).restaurants b true
        = []
    · rw [if_pos hfil, if_pos hfil]
      exact ⟨rfl, rfl⟩
    · rw [if_neg hfil, if_neg hfil]
      exact ⟨rfl, rfl⟩

/-- C9 counterexample: with budget 10, an unknown-cost venue is kept (the
pass is not strict), and when every venue is over budget the unfiltered
over-budget venue is returned with no explanatory note — refuting both the
"discarding unknown-cost venues" and the "empty post-filter result is
reported as-is with an explanatory note" parts of the claim. -/
theorem c9_cex :
    (amap_smart_search amapOracleU none none none (some 10)).restaurants = [vU] ∧
    (amap_smart_search amapOracleE none none none (some 10)).restaurants = [v100] ∧
    (amap_smart_search amapOracleE none none none (some 10)).relaxed = none := by decide

/-- Witness for C1 at a concrete oracle: three candidates, ceiling 60. -/
theorem c1_w :
    (smart_search oracle1 none (some "川菜") none (some 60)).1.restaurants
        = filter_by_budget (phaseA oracle1 none (some "川菜") none).1.restaurants 60 false ∧
    (smart_search oracle1 none (some "川菜") none (some 60)).1.relaxed
        = (phaseA oracle1 none (some "川菜") none).1.relaxed :=
  ⟨(c1_strict_filter oracle1 none (some "川菜") none 60 (by decide) (by decide)).1,
   (c1_strict_filter oracle1 none (some "川菜") none 60 (by decide) (by decide)).2.1⟩

/-- Witness for the amended C3 at a concrete list and ceiling. -/
theorem c3_w :
    (∀ r ∈ filter_by_budget [v40] 45 false, r ∈ filter_by_budget [v40] (relaxedBudget 45) false) ∧
    (∀ r ∈ filter_by_budget [v40] 45 false, r ∈ filter_by_budget [v40] 45 true) :=
  c3_ladder_monotone [v40] 45 (by decide)

/-- Witness for C4 at a concrete oracle: one venue of cost 40, ceiling 30. -/
theorem c4_w :
    (smart_search oracle4 none (some "川菜") none (some 30)).1.restaurants
        = filter_by_budget (phaseA oracle4 none (some "川菜") none).1.restaurants
            (relaxedBudget 30) false ∧
    (smart_search oracle4 none (some "川菜") none (some 30)).1.relaxed
        = some (joinRelaxed (phaseA oracle4 none (some "川菜") none).1.relaxed
            (relaxNote (relaxedBudget 30))) :=
  c4_loosened_budget oracle4 none (some "川菜") none 30 (by decide) (by decide) (by decide)

/-- Witness for C5 at a concrete overlapping merge. -/
theorem c5_w :
    ((mergePhase oracle5 (some "辣") none primary5).1.restaurants.map (fun r => r.id)).Nodup :=
  c5_merge_nodup oracle5 (some "辣") none primary5 (by decide)

/-- Witness for C6 at a concrete all-empty oracle and a supplied budget. -/
theorem c6_w :
    (smart_search oracle6 none (some "寿司") none (some 50)).2.take 2
        = [((selectQuery none (some "寿司") none).1, (selectQuery none (some "寿司") none).2),
           broadenCall] ∧
    smart_search oracle6 none (some "寿司") none (some 50)
        = (oracle6 (selectQuery none (some "寿司") none).1 (selectQuery none (some "寿司") none).2,
           [((selectQuery none (some "寿司") none).1, (selectQuery none (some "寿司") none).2),
            broadenCall]) :=
  ⟨(c6_scope_broadening oracle6 none (some "寿司") none (some 50) (by decide) (by decide)).1,
   (c6_scope_broadening oracle6 none (some "寿司") none (some 50) (by decide) (by decide)).2.1
     (by decide)⟩

/-- Witness for C7 at a concrete oracle: six over-budget venues, ceiling 10. -/
theorem c7_w :
    (smart_search oracle7 none (some "川菜") none (some 10)).1.restaurants
        = (phaseA oracle7 none (some "川菜") none).1.restaurants.take 5 ∧
    (smart_search oracle7 none (some "川菜") none (some 10)).1.restaurants.length ≤ 5 :=
  ⟨(c7_terminal_fallback oracle7 none (some "川菜") none 10 (by decide) (by decide) (by decide)
      (by decide) (Or.inr (Or.inl (by decide)))).1,
   (c7_terminal_fallback oracle7 none (some "川菜") none 10 (by decide) (by decide) (by decide)
      (by decide) (Or.inr (Or.inl (by decide)))).2.1⟩

/-- Witness for the amended C9 at a concrete oracle and ceiling. -/
theorem c9_w :
    (amap_smart_search amapOracleE none none none (some 10)).restaurants
      = (if filter_by_budget (amapOracleE (amap_select_query none none none)).restaurants 10 true = []
         then (amapOracleE (amap_select_query none none none)).restaurants
         else filter_by_budget (amapOracleE (amap_select_query none none none)).restaurants 10 true) ∧
    (amap_smart_search amapOracleE none none none (some 10)).relaxed
      = (amapOracleE (amap_select_query none none none)).relaxed :=
  c9_single_pass amapOracleE none none none 10 (by decide)

end FoodAgent
